import Mathlib

/-!
Verification of the streamlit-ollama-chat repository.

The development shallowly embeds the relevant parts of the source:

* src/lib/storage.py      — relational store over conversations, messages,
  attachments, sessions, assignments and settings (SQL statements become
  pure transformations of an explicit database state);
* src/lib/ollama_api.py   — the streaming chat client with its capability
  (think) retry logic, modelled over an abstract server function;
* src/lib/supabase_storage.py — only its function signatures matter here:
  the keyword-argument compatibility between the call sites in storage.py
  and the declared parameters is modelled explicitly, because Python raises
  TypeError at call time when they do not match;
* src/app.py              — payload assembly (system prompt selection and
  attachment windowing) and the send flow persistence ordering.

Python strings are Lean String; Python str.strip / lower / startswith are
modelled on the underlying character list. Machine-level concerns (actual
HTTP, sqlite) are abstracted as function parameters where the code calls
out, never inside the embedded logic itself.
-/

namespace Ds330

/-- Model of Python str.strip(): drop whitespace from both ends. -/
def pyStrip (s : String) : String :=
  ⟨(s.data.dropWhile Char.isWhitespace).rdropWhile Char.isWhitespace⟩

/-- Model of Python str.lower(). -/
def pyLower (s : String) : String :=
  ⟨s.data.map Char.toLower⟩

/-- Model of Python str.startswith(pre). -/
def pyStartsWith (s pre : String) : Bool :=
  pre.data.isPrefixOf s.data

/-- Model of Python str.rstrip(c): drop trailing occurrences of one char. -/
def pyRstripChar (s : String) (c : Char) : String :=
  ⟨s.data.rdropWhile (· = c)⟩

/-! ### Data model (tables of src/lib/storage.py) -/

/-- Row of the sessions table. -/
structure SessionRow where
  token : String
  user_id : String
  role : String
  created_at : String
  expires_at : String
deriving DecidableEq, Repr

/-- Row of the assignments table. The prompt column is nullable after the
additive migration, hence Option. -/
structure AssignmentRow where
  id : Nat
  name : String
  prompt : Option String
  created_at : String
  updated_at : String
deriving DecidableEq, Repr

/-- Row of the conversations table. -/
structure ConversationRow where
  id : Nat
  user_id : String
  role : String
  title : Option String
  model : Option String
  system_prompt : Option String
  base_prompt : Option String
  assignment_id : Option Nat
  assignment_name : Option String
  assignment_prompt : Option String
  created_at : String
  updated_at : String
deriving DecidableEq, Repr

/-- Row of the messages table. -/
structure MessageRow where
  id : Nat
  conversation_id : Nat
  role : String
  content : String
  created_at : String
deriving DecidableEq, Repr

/-- Row of the attachments table. Exactly one of data (inline bytes,
modelled as List Nat) or bucket/path (external storage) is set by the
writers of storage.py. -/
structure AttachmentRow where
  id : Nat
  message_id : Nat
  kind : String
  filename : String
  mime : String
  data : Option (List Nat)
  text_content : Option String
  bucket : Option String
  path : Option String
  created_at : String
deriving DecidableEq, Repr

/-- The relational state: the tables touched by the claims, plus the two
autoincrement counters (SQLite last_insert_rowid sources). -/
structure DB where
  sessions : List SessionRow
  settings : List (String × String)
  assignments : List AssignmentRow
  conversations : List ConversationRow
  messages : List MessageRow
  attachments : List AttachmentRow
  next_message_id : Nat
  next_attachment_id : Nat
deriving DecidableEq, Repr

/-! ### Settings (storage.py set_setting / set_base_system_prompt) -/

/-- storage.set_setting: upsert into the settings table. -/
def set_setting (db : DB) (key value : String) : DB :=
  { db with settings :=
      if db.settings.any (fun kv => kv.1 = key) then
        db.settings.map (fun kv => if kv.1 = key then (key, value) else kv)
      else
        db.settings ++ [(key, value)] }

/-- storage.set_base_system_prompt: set_setting with key base_system_prompt.
The Python body passes prompt or the empty string, which is the identity on
a string argument. -/
def set_base_system_prompt (db : DB) (prompt : String) : DB :=
  set_setting db "base_system_prompt" prompt

/-! ### Assignments (storage.py update_assignment_prompt) -/

/-- storage.update_assignment_prompt: rewrite the prompt and updated_at of
one assignments row. The Python body stores prompt or "", identity on a
string argument. -/
def update_assignment_prompt (db : DB) (assignment_id : Nat) (prompt : String)
    (now : String) : DB :=
  { db with assignments := db.assignments.map (fun a =>
      if a.id = assignment_id then
        { a with prompt := some prompt, updated_at := now }
      else a) }

/-! ### Conversations (storage.py touch_conversation, backfill) -/

/-- storage.touch_conversation: always bump updated_at; set title, model,
system_prompt only when the optional argument was passed (is not None). -/
def touch_conversation (db : DB) (conversation_id : Nat)
    (title model system_prompt : Option String) (now : String) : DB :=
  { db with conversations := db.conversations.map (fun c =>
      if c.id = conversation_id then
        { c with
          updated_at := now
          title := match title with | some t => some t | none => c.title
          model := match model with | some m => some m | none => c.model
          system_prompt := match system_prompt with
            | some s => some s | none => c.system_prompt }
      else c) }

/-- Helper for the backfill: the first assignments row by id
(SQL ORDER BY id LIMIT 1). -/
def firstAssignmentById (l : List AssignmentRow) : Option AssignmentRow :=
  match l with
  | [] => none
  | a :: rest => some (rest.foldl (fun best x => if x.id < best.id then x else best) a)

/-- The per-row effect of the backfill UPDATE: rows matched by the WHERE
clause get COALESCE(assignment_id, default) and
COALESCE(NULLIF(col, empty), default) for name and prompt; other rows are
untouched. -/
def backfillRow (a_id : Nat) (a_name a_prompt : String) (c : ConversationRow) :
    ConversationRow :=
  if c.assignment_id = none
      ∨ c.assignment_name = none ∨ c.assignment_name = some ""
      ∨ c.assignment_prompt = none ∨ c.assignment_prompt = some "" then
    { c with
      assignment_id := some (c.assignment_id.getD a_id)
      assignment_name := match c.assignment_name with
        | none => some a_name
        | some s => if s = "" then some a_name else some s
      assignment_prompt := match c.assignment_prompt with
        | none => some a_prompt
        | some s => if s = "" then some a_prompt else some s }
  else c

/-- storage._backfill_conversation_assignments: pick the row named
Assignment 1 (falling back to the first row by id, returning early when
there is none); then apply the backfill UPDATE to every conversations row.
The defaults fall back to the literal Assignment 1 name and the empty
prompt when the source row holds falsy values. -/
def backfill_conversation_assignments (db : DB) : DB :=
  match
    (match db.assignments.find? (fun a => a.name = "Assignment 1") with
     | some r => some r
     | none => firstAssignmentById db.assignments) with
  | none => db
  | some a =>
    let a_name := if a.name = "" then "Assignment 1" else a.name
    let a_prompt := match a.prompt with
      | some p => p
      | none => ""
    { db with conversations := db.conversations.map (backfillRow a.id a_name a_prompt) }

/-! ### Messages (storage.py add_message, update_message,
delete_messages_after) -/

/-- storage.add_message: insert a messages row, returning the new id. -/
def add_message (db : DB) (conversation_id : Nat) (role content now : String) :
    DB × Nat :=
  let mid := db.next_message_id
  ({ db with
      messages := db.messages ++ [⟨mid, conversation_id, role, content, now⟩]
      next_message_id := mid + 1 }, mid)

/-- storage.delete_messages_after: collect the ids of the messages of the
conversation with a larger id, delete the attachments referencing them
(skipped when the id list is empty, as in the Python guard), then delete
those messages. -/
def delete_messages_after (db : DB) (conversation_id message_id : Nat) : DB :=
  let msg_ids := (db.messages.filter
      (fun x => decide (x.conversation_id = conversation_id ∧ message_id < x.id))).map
      (fun x => x.id)
  let attachments := if msg_ids ≠ [] then
      db.attachments.filter (fun a => decide (a.message_id ∉ msg_ids))
    else db.attachments
  { db with
      attachments := attachments
      messages := db.messages.filter
        (fun x => decide (¬(x.conversation_id = conversation_id ∧ message_id < x.id))) }

/-! ### Sessions (storage.py get_session, delete_session) -/

/-- The dict returned by storage.get_session on success. -/
structure SessionView where
  token : String
  user_id : String
  role : String
deriving DecidableEq, Repr

/-- storage.delete_session: remove the row with that token. -/
def delete_session (db : DB) (token : String) : DB :=
  { db with sessions := db.sessions.filter (fun s => decide (¬s.token = token)) }

/-- storage.get_session. The datetime.fromisoformat call together with the
timezone normalisation is modelled by the parse argument; a parse failure
(the except-pass branch) is parse returning none, in which case the expiry
check is skipped and the session is returned. When the parsed expiry is in
the past the row is deleted and None is returned. -/
def get_session (parse : String → Option Int) (now : Int) (db : DB)
    (token : String) : Option SessionView × DB :=
  match db.sessions.find? (fun s => s.token = token) with
  | none => (none, db)
  | some d =>
    match parse d.expires_at with
    | some exp =>
        if exp < now then (none, delete_session db token)
        else (some ⟨d.token, d.user_id, d.role⟩, db)
    | none => (some ⟨d.token, d.user_id, d.role⟩, db)

/-! ### Attachments (storage.py add_attachment,
list_attachments_for_message_ids; src/lib/supabase_storage.py signatures)

Python binds keyword arguments at call time: a keyword that is not among
the declared parameters of the callee raises TypeError before the body
runs. The two cross-module calls in storage.py are therefore modelled by
an explicit compatibility check between the keywords used at the call site
and the parameter names declared in supabase_storage.py. -/

/-- Whether every keyword used by a call is a declared parameter name. -/
def kwargsOk (params kwargs : List String) : Bool :=
  kwargs.all (fun k => params.contains k)

/-- Declared parameters of supabase_storage.upload_bytes. -/
def uploadBytesParamNames : List String :=
  ["user_id", "conversation_id", "message_id", "filename", "mime", "data", "upsert"]

/-- Keywords used by the upload_bytes call inside storage.add_attachment. -/
def addAttachmentUploadKwargs : List String :=
  ["supabase_url", "service_role_key", "bucket", "path", "data", "content_type"]

/-- Declared parameters of supabase_storage.download_bytes. -/
def downloadBytesParamNames : List String :=
  ["bucket", "path"]

/-- Keywords used by the download_bytes call inside
storage.list_attachments_for_message_ids. -/
def listAttachmentsDownloadKwargs : List String :=
  ["supabase_url", "service_role_key", "bucket", "path"]

/-- storage.add_attachment. With external storage configured (sb true) the
code first invokes supabase_storage.upload_bytes; the keyword binding is
checked the way the Python runtime does, and on mismatch a TypeError
propagates out of add_attachment (this call is not inside a try block).
Otherwise the bytes are stored inline. bucketCfg and randPath stand for
SUPABASE_STORAGE_BUCKET and the generated object path. -/
def add_attachment (sb : Bool) (bucketCfg randPath : String) (db : DB)
    (message_id : Nat) (kind filename mime : String) (data : List Nat)
    (text_content : Option String) (now : String) : Except String DB :=
  if sb then
    if kwargsOk uploadBytesParamNames addAttachmentUploadKwargs then
      Except.ok { db with
        attachments := db.attachments ++
          [⟨db.next_attachment_id, message_id, kind, filename, mime, none,
            text_content, some bucketCfg, some randPath, now⟩]
        next_attachment_id := db.next_attachment_id + 1 }
    else
      Except.error "TypeError: upload_bytes() got an unexpected keyword argument"
  else
    Except.ok { db with
      attachments := db.attachments ++
        [⟨db.next_attachment_id, message_id, kind, filename, mime, some data,
          text_content, none, none, now⟩]
      next_attachment_id := db.next_attachment_id + 1 }

/-- The record assembled per attachment row by
storage.list_attachments_for_message_ids. -/
structure AttachmentOut where
  id : Nat
  message_id : Nat
  kind : String
  filename : String
  mime : String
  data : Option (List Nat)
  text_content : Option String
deriving DecidableEq, Repr

/-- One iteration of the row loop of
storage.list_attachments_for_message_ids: when the stored data is NULL and
external storage is configured and bucket and path are truthy, the bytes
are fetched on demand inside a try block whose except clause sets data to
None; the keyword binding of the download_bytes call is checked first,
exactly as the Python runtime does (its TypeError is caught by the same
except clause). fetch stands for the behaviour of
supabase_storage.download_bytes. -/
def resolve_attachment_row (sb : Bool)
    (fetch : String → String → Except Unit (List Nat)) (r : AttachmentRow) :
    AttachmentOut :=
  let data := r.data
  let data :=
    if data = none ∧ sb
        ∧ r.bucket ≠ none ∧ r.bucket ≠ some ""
        ∧ r.path ≠ none ∧ r.path ≠ some "" then
      if kwargsOk downloadBytesParamNames listAttachmentsDownloadKwargs then
        match fetch (r.bucket.getD "") (r.path.getD "") with
        | Except.ok b => some b
        | Except.error _ => none
      else none
    else data
  ⟨r.id, r.message_id, r.kind, r.filename, r.mime, data, r.text_content⟩

/-- storage.list_attachments_for_message_ids: empty input short-circuits;
otherwise the attachment rows of the given message ids are resolved. The
Python function groups the resolved records into a dict keyed by
message_id preserving row order; the grouping is omitted here and the
records are returned as one flat list in row order. -/
def list_attachments_for_message_ids (sb : Bool)
    (fetch : String → String → Except Unit (List Nat)) (db : DB)
    (message_ids : List Nat) : List AttachmentOut :=
  if message_ids = [] then []
  else
    (db.attachments.filter (fun r => decide (r.message_id ∈ message_ids))).map
      (resolve_attachment_row sb fetch)

/-! ### Chat client (src/lib/ollama_api.py) -/

/-- ollama_api._normalize_host. -/
def normalize_host (host : String) : String :=
  let h := pyStrip host
  if h = "" then h
  else
    let h := if pyStartsWith h "http://" ∨ pyStartsWith h "https://" then h
      else "https://" ++ h
    pyRstripChar h '/'

/-- ollama_api._base_api_url. -/
def base_api_url (host : String) : String :=
  normalize_host host ++ "/api"

/-- ollama_api._headers. -/
def chatHeaders (api_key : Option String) : List (String × String) :=
  [("Content-Type", "application/json")] ++
    (match api_key with
     | some k => if k ≠ "" then [("Authorization", "Bearer " ++ k)] else []
     | none => [])

/-- A message of the wire payload: role, content, and the base64 images
list (empty meaning the key is absent). -/
structure PayloadMsg where
  role : String
  content : String
  images : List String
deriving DecidableEq, Repr

/-- The JSON body POSTed by chat_stream. options and think are present
only when truthy. -/
structure ChatPayload where
  model : String
  messages : List PayloadMsg
  stream : Bool
  options : Option String
  think : Option String
deriving DecidableEq, Repr

/-- An HTTP response as chat_stream inspects it: status code and text. -/
structure HttpResponse where
  status : Nat
  body : String
deriving DecidableEq, Repr

/-- One POST issued by chat_stream. -/
structure ChatRequest where
  url : String
  headers : List (String × String)
  payload : ChatPayload
deriving DecidableEq, Repr

/-- The HTTPError raised by ollama_api._raise_with_details: the message
carries the status code, the request url, and a body snippet truncated to
1500 characters. -/
structure OllamaError where
  status : Nat
  url : String
  snippet : String
deriving DecidableEq, Repr

/-- ollama_api._raise_with_details. -/
def raise_with_details (r : HttpResponse) (url : String) : OllamaError :=
  let snippet := pyStrip r.body
  let snippet := if 1500 < snippet.data.length
    then String.mk (snippet.data.take 1500) ++ "…" else snippet
  ⟨r.status, url, snippet⟩

/-- The body check of the retry branch: whether the lowercased response
text contains the substring think. -/
def bodyMentionsThink (body : String) : Bool :=
  decide ("think".data <:+: (pyLower body).data)

/-- The initial JSON payload built by chat_stream: options and think are
added only when truthy (a None or empty value leaves the key absent). -/
def initialChatPayload (model : String) (messages : List PayloadMsg)
    (options think : Option String) : ChatPayload :=
  { model := model
    messages := messages
    stream := true
    options := match options with
      | some o => if o ≠ "" then some o else none
      | none => none
    think := match think with
      | some t => if t ≠ "" then some t else none
      | none => none }

/-- ollama_api.chat_stream up to the point where the response stream is
consumed. server n p is the response of the server to the n-th POST with
body p. Returns the list of requests issued and either the error raised
(status at least 400 after the optional retry) or the successful response.
The Python retry guard reads the response body but its condition is
(think in body) or True, embedded verbatim below. -/
def chat_stream (server : Nat → ChatPayload → HttpResponse) (host : String)
    (api_key : Option String) (model : String) (messages : List PayloadMsg)
    (options think : Option String) :
    List ChatRequest × Except OllamaError HttpResponse :=
  let url := base_api_url host ++ "/chat"
  let headers := chatHeaders api_key
  let payload := initialChatPayload model messages options think
  let r0 := server 0 payload
  if (r0.status = 400 ∨ r0.status = 422) ∧ payload.think ≠ none then
    if bodyMentionsThink r0.body = true ∨ True then
      let payload2 := { payload with think := none }
      let r1 := server 1 payload2
      let reqs := [⟨url, headers, payload⟩, ⟨url, headers, payload2⟩]
      if 400 ≤ r1.status then (reqs, Except.error (raise_with_details r1 url))
      else (reqs, Except.ok r1)
    else
      let reqs := [⟨url, headers, payload⟩]
      if 400 ≤ r0.status then (reqs, Except.error (raise_with_details r0 url))
      else (reqs, Except.ok r0)
  else
    let reqs := [⟨url, headers, payload⟩]
    if 400 ≤ r0.status then (reqs, Except.error (raise_with_details r0 url))
    else (reqs, Except.ok r0)

/-! ### Helper lemmas on the string model -/

theorem dropWhile_rdropWhile_dropWhile (w : Char → Bool) (l : List Char) :
    ((l.dropWhile w).rdropWhile w).dropWhile w = (l.dropWhile w).rdropWhile w := by
  rw [List.dropWhile_eq_self_iff]
  intro hl
  have hpre : (l.dropWhile w).rdropWhile w <+: l.dropWhile w :=
    List.rdropWhile_prefix w (l.dropWhile w)
  have hlen : 0 < (l.dropWhile w).length := lt_of_lt_of_le hl hpre.length_le
  have hw := List.dropWhile_get_zero_not w l hlen
  have hg : (l.dropWhile w).get ⟨0, hlen⟩ = ((l.dropWhile w).rdropWhile w).get ⟨0, hl⟩ := by
    simpa [List.get_eq_getElem] using (hpre.getElem hl).symm
  rwa [hg] at hw

theorem pyStrip_idem (s : String) : pyStrip (pyStrip s) = pyStrip s := by
  simp only [pyStrip]
  rw [dropWhile_rdropWhile_dropWhile, List.rdropWhile_idempotent]

/-! ### Payload assembly and send flow (src/app.py) -/

/-- app.DEFAULT_BASE_PROMPT. -/
def DEFAULT_BASE_PROMPT : String :=
  "You are a helpful assistant for DS330. Follow the course rules and be concise, correct, and student-friendly."

/-- app._combined_prompt. -/
def combined_prompt (base_prompt assignment_prompt : String) : String :=
  let base := pyStrip base_prompt
  let ap := pyStrip assignment_prompt
  let base := if base = "" then pyStrip DEFAULT_BASE_PROMPT else base
  base ++ (if ap ≠ "" then "\n\n" ++ ap else "")

/-- storage.get_base_system_prompt: the stored value when it is set and not
whitespace-only, else the default. The stored value is returned unstripped. -/
def get_base_system_prompt (v : Option String) (default : String) : String :=
  match v with
  | some s => if pyStrip s ≠ "" then s else default
  | none => default

/-- The conversation metadata fields read by app._build_payload_messages. -/
structure ConvMeta where
  base_prompt : Option String
  assignment_prompt : Option String
  system_prompt : Option String
deriving DecidableEq, Repr

/-- An attachment as held in the session-state message list. -/
structure UiAttachment where
  kind : String
  filename : Option String
  data : Option (List Nat)
  text_content : Option String
deriving DecidableEq, Repr

/-- A message as held in the session-state message list. -/
structure UiMessage where
  id : Nat
  role : String
  content : String
  attachments : List UiAttachment
deriving DecidableEq, Repr

/-- The system prompt selected at the top of app._build_payload_messages:
prefer the frozen base/assignment snapshot, else the stored system_prompt
(stripped), else the current global settings. globalBase is the
base_system_prompt setting, activePrompt the prompt of the active
assignment. -/
def payloadSystemPrompt (conv : ConvMeta) (globalBase activePrompt : Option String) :
    String :=
  let base_prompt := pyStrip (conv.base_prompt.getD "")
  let ap := pyStrip (conv.assignment_prompt.getD "")
  let sys_prompt := pyStrip (conv.system_prompt.getD "")
  if base_prompt ≠ "" ∨ ap ≠ "" then combined_prompt base_prompt ap
  else if sys_prompt ≠ "" then sys_prompt
  else combined_prompt (get_base_system_prompt globalBase DEFAULT_BASE_PROMPT)
    (activePrompt.getD "")

/-- The text appended for the qualifying file attachments of one user turn
(the += loop of app._build_payload_messages). The Python guard requires
kind file and a truthy text_content; the filename falls back to the word
file when falsy. -/
def fileTextSuffix (atts : List UiAttachment) : String :=
  atts.foldl (fun acc att =>
    if att.kind = "file" ∧ att.text_content ≠ none ∧ att.text_content ≠ some "" then
      acc ++ "\n\n[Attached file: "
        ++ (match att.filename with
            | some s => if s = "" then "file" else s
            | none => "file")
        ++ "]\n" ++ att.text_content.getD "" ++ "\n"
    else acc) ""

/-- The base64 image list of one user turn (kind image with truthy data);
b64 stands for base64.b64encode plus utf-8 decoding. -/
def imagesOf (b64 : List Nat → String) (atts : List UiAttachment) : List String :=
  atts.filterMap (fun att =>
    if att.kind = "image" ∧ att.data ≠ none ∧ att.data ≠ some [] then
      some (b64 (att.data.getD []))
    else none)

/-- Indices of the user turns in the history (the user_idxs list). -/
def userIdxs (msgs : List UiMessage) : List Nat :=
  ((msgs.enum).filter (fun p => p.2.role = "user")).map (fun p => p.1)

/-- Python user_idxs[-n:] for positive n, the empty set otherwise. -/
def lastWindow (n : Nat) (msgs : List UiMessage) : List Nat :=
  if 0 < n then (userIdxs msgs).drop ((userIdxs msgs).length - n) else []

/-- app._build_payload_messages: a synthesized system turn followed by the
history. Extracted file text is appended to a user turn only when its
index is among the last fileN user turns; images only among the last
imageN user turns. A history row with a falsy role counts as user; any
other role is emitted as assistant. -/
def build_payload_messages (fileN imageN : Nat) (b64 : List Nat → String)
    (conv : ConvMeta) (globalBase activePrompt : Option String)
    (msgs : List UiMessage) : List PayloadMsg :=
  let system_prompt := payloadSystemPrompt conv globalBase activePrompt
  let include_files_from := lastWindow fileN msgs
  let include_images_from := lastWindow imageN msgs
  ⟨"system", system_prompt, []⟩ ::
    (msgs.enum).map (fun p =>
      let i := p.1
      let m := p.2
      let role := if m.role = "" then "user" else m.role
      let content := m.content
      if role = "user" then
        let content_out :=
          if i ∈ include_files_from then content ++ fileTextSuffix m.attachments
          else content
        let images_b64 :=
          if i ∈ include_images_from then imagesOf b64 m.attachments else []
        ⟨"user", content_out, images_b64⟩
      else ⟨"assistant", content, []⟩)

/-- The system-turn content as the specification states it (with the two
amendments the code forces: the stored system_prompt is used after
stripping, and the assignment part is appended only when non-empty after
stripping). The concatenation rule is written out from the spec text:
base stripped, then two newlines and the stripped assignment when that is
non-empty, the hardcoded default substituted when the base is empty. The
third branch applies the rule directly to the current global base prompt
setting and the active assignment prompt. -/
def specSystemPrompt (conv : ConvMeta) (globalBase activePrompt : Option String) :
    String :=
  let rule := fun (base assignment : String) =>
    (if pyStrip base = "" then pyStrip DEFAULT_BASE_PROMPT else pyStrip base)
      ++ (if pyStrip assignment ≠ "" then "\n\n" ++ pyStrip assignment else "")
  if pyStrip (conv.base_prompt.getD "") ≠ ""
      ∨ pyStrip (conv.assignment_prompt.getD "") ≠ "" then
    rule (conv.base_prompt.getD "") (conv.assignment_prompt.getD "")
  else if pyStrip (conv.system_prompt.getD "") ≠ "" then
    pyStrip (conv.system_prompt.getD "")
  else
    rule (globalBase.getD "") (activePrompt.getD "")

/-- A file submitted with the chat input, after app.py has read its bytes,
mime and name and run text extraction. -/
structure FileUpload where
  kind : String
  filename : String
  mime : String
  data : List Nat
  text_content : Option String
deriving DecidableEq, Repr

/-- The outcome of consuming the chat_stream generator: either the full
chunk list, or an exception after some prefix of chunks. -/
inductive StreamOutcome where
  | ok (chunks : List String)
  | fail (partialChunks : List String)
deriving DecidableEq, Repr

/-- Inline insertion of one attachment row (the sb false branch of
storage.add_attachment, used by the send flow below). -/
def insert_attachment_inline (db : DB) (message_id : Nat) (f : FileUpload)
    (now : String) : DB :=
  { db with
    attachments := db.attachments ++
      [⟨db.next_attachment_id, message_id, f.kind, f.filename, f.mime,
        some f.data, f.text_content, none, none, now⟩]
    next_attachment_id := db.next_attachment_id + 1 }

/-- The send flow of app._chat_page (the block from the add_message call
for the user turn through the assistant persistence): the user message and
its attachments are persisted first, then the stream is consumed; only
when it completes without raising is the accumulated text stored as an
assistant message and the conversation touched with the active model. The
exception handlers return before any assistant insert. Attachment storage
is the inline branch here; the external branch raises before streaming and
is settled separately. -/
def send_flow (db : DB) (conv_id : Nat) (user_text : String)
    (files : List FileUpload) (outcome : StreamOutcome)
    (active_model now : String) : DB :=
  let r := add_message db conv_id "user" user_text now
  let db1 := r.1
  let user_msg_id := r.2
  let db2 := files.foldl (fun d f => insert_attachment_inline d user_msg_id f now) db1
  match outcome with
  | StreamOutcome.fail _ => db2
  | StreamOutcome.ok chunks =>
      let full := chunks.foldl (fun acc c => acc ++ c) ""
      let db3 := (add_message db2 conv_id "assistant" full now).1
      touch_conversation db3 conv_id none (some active_model) none now

/-- The attachment rows the send flow appends for the uploaded files, with
ids counting up from the first free attachment id. -/
def inlineRows (start_att_id message_id : Nat) (files : List FileUpload)
    (now : String) : List AttachmentRow :=
  (files.enumFrom start_att_id).map (fun p =>
    ⟨p.1, message_id, p.2.kind, p.2.filename, p.2.mime, some p.2.data,
      p.2.text_content, none, none, now⟩)

/-! ### Theorems -/

/-- The conversation fields that touch_conversation leaves alone
(everything except title, model, system_prompt, updated_at). -/
def convFrozenKey (c : ConversationRow) :
    Nat × String × String × Option String × Option Nat × Option String
      × Option String × String :=
  (c.id, c.user_id, c.role, c.base_prompt, c.assignment_id, c.assignment_name,
    c.assignment_prompt, c.created_at)

/-- Referential integrity of the attachments table: every attachment row
references an existing message. -/
def attachmentIntegrity (db : DB) : Prop :=
  ∀ a ∈ db.attachments, ∃ mg ∈ db.messages, mg.id = a.message_id

/-- C1: the snapshot fields of a conversation (base_prompt, assignment_id,
assignment_name, assignment_prompt) set at creation are never changed by
the subsequent operations: touch_conversation rewrites only title, model,
system_prompt and updated_at; update_assignment_prompt and
set_base_system_prompt leave the conversations table (and every table
other than assignments resp. settings) unchanged; and the schema-init
backfill fills assignment fields only when they are NULL or empty, never
overwriting a populated value and never touching base_prompt. -/
theorem C1_snapshot_fields_frozen :
    (∀ db conversation_id title model system_prompt now,
      ((touch_conversation db conversation_id title model system_prompt
          now).conversations).map convFrozenKey
        = db.conversations.map convFrozenKey)
    ∧ (∀ db assignment_id prompt now,
        (update_assignment_prompt db assignment_id prompt now).conversations
            = db.conversations
        ∧ (update_assignment_prompt db assignment_id prompt now).messages
            = db.messages
        ∧ (update_assignment_prompt db assignment_id prompt now).attachments
            = db.attachments
        ∧ (update_assignment_prompt db assignment_id prompt now).settings
            = db.settings
        ∧ (update_assignment_prompt db assignment_id prompt now).sessions
            = db.sessions)
    ∧ (∀ db prompt,
        (set_base_system_prompt db prompt).conversations = db.conversations
        ∧ (set_base_system_prompt db prompt).messages = db.messages
        ∧ (set_base_system_prompt db prompt).attachments = db.attachments
        ∧ (set_base_system_prompt db prompt).assignments = db.assignments
        ∧ (set_base_system_prompt db prompt).sessions = db.sessions)
    ∧ (∀ (db : DB) (i : Nat) (c c₂ : ConversationRow),
        db.conversations[i]? = some c →
        (backfill_conversation_assignments db).conversations[i]? = some c₂ →
        c₂.base_prompt = c.base_prompt
        ∧ (c.assignment_id ≠ none → c₂.assignment_id = c.assignment_id)
        ∧ (c.assignment_name ≠ none → c.assignment_name ≠ some "" →
            c₂.assignment_name = c.assignment_name)
        ∧ (c.assignment_prompt ≠ none → c.assignment_prompt ≠ some "" →
            c₂.assignment_prompt = c.assignment_prompt)) := by
  refine ⟨?_, ?_, ?_, ?_⟩
  · intro db conversation_id title model system_prompt now
    simp only [touch_conversation, List.map_map]
    refine List.map_congr_left ?_
    intro c _
    by_cases h : c.id = conversation_id
    · simp only [Function.comp_apply, if_pos h, convFrozenKey]
    · simp only [Function.comp_apply, if_neg h]
  · intro db assignment_id prompt now
    exact ⟨rfl, rfl, rfl, rfl, rfl⟩
  · intro db prompt
    exact ⟨rfl, rfl, rfl, rfl, rfl⟩
  · intro db i c c₂ hc hc₂
    have hrow : c₂ = c ∨ ∃ a_id a_name a_prompt,
        c₂ = backfillRow a_id a_name a_prompt c := by
      unfold backfill_conversation_assignments at hc₂
      split at hc₂
      · left
        rw [hc] at hc₂
        exact (Option.some_injective _ hc₂).symm
      · right
        simp only [List.getElem?_map, hc, Option.map_some'] at hc₂
        exact ⟨_, _, _, (Option.some_injective _ hc₂).symm⟩
    rcases hrow with h | ⟨a_id, a_name, a_prompt, h⟩
    · subst h
      exact ⟨rfl, fun _ => rfl, fun _ _ => rfl, fun _ _ => rfl⟩
    · subst h
      unfold backfillRow
      by_cases hcond : c.assignment_id = none
          ∨ c.assignment_name = none ∨ c.assignment_name = some ""
          ∨ c.assignment_prompt = none ∨ c.assignment_prompt = some ""
      · rw [if_pos hcond]
        refine ⟨rfl, ?_, ?_, ?_⟩
        · intro hid
          cases hx : c.assignment_id with
          | none => exact absurd hx hid
          | some v => simp [hx]
        · intro hn hn'
          cases hx : c.assignment_name with
          | none => exact absurd hx hn
          | some s =>
            have hs : ¬s = "" := by
              intro hs; exact hn' (by rw [hx, hs])
            simp [hx, hs]
        · intro hp hp'
          cases hx : c.assignment_prompt with
          | none => exact absurd hx hp
          | some s =>
            have hs : ¬s = "" := by
              intro hs; exact hp' (by rw [hx, hs])
            simp [hx, hs]
      · rw [if_neg hcond]
        exact ⟨rfl, fun _ => rfl, fun _ _ => rfl, fun _ _ => rfl⟩

theorem C1_snapshot_fields_frozen_witness :
    ((⟨[], [], [⟨1, "Assignment 1", some "Q", "t0", "t0"⟩],
        [⟨7, "u", "student", none, none, none, some "B", some 1, some "A1",
          some "P", "t0", "t0"⟩], [], [], 1, 1⟩ : DB).conversations[0]?
      = some ⟨7, "u", "student", none, none, none, some "B", some 1, some "A1",
          some "P", "t0", "t0"⟩)
    ∧ ((backfill_conversation_assignments
        ⟨[], [], [⟨1, "Assignment 1", some "Q", "t0", "t0"⟩],
          [⟨7, "u", "student", none, none, none, some "B", some 1, some "A1",
            some "P", "t0", "t0"⟩], [], [], 1, 1⟩).conversations[0]?
      = some ⟨7, "u", "student", none, none, none, some "B", some 1, some "A1",
          some "P", "t0", "t0"⟩)
    ∧ ((⟨7, "u", "student", none, none, none, some "B", some 1, some "A1",
          some "P", "t0", "t0"⟩ : ConversationRow).base_prompt = some "B"
        ∧ ((⟨7, "u", "student", none, none, none, some "B", some 1, some "A1",
          some "P", "t0", "t0"⟩ : ConversationRow).assignment_id ≠ none →
            (⟨7, "u", "student", none, none, none, some "B", some 1, some "A1",
          some "P", "t0", "t0"⟩ : ConversationRow).assignment_id = some 1)) := by
  refine ⟨by decide, by decide, ?_⟩
  have h := C1_snapshot_fields_frozen.2.2.2
    ⟨[], [], [⟨1, "Assignment 1", some "Q", "t0", "t0"⟩],
      [⟨7, "u", "student", none, none, none, some "B", some 1, some "A1",
        some "P", "t0", "t0"⟩], [], [], 1, 1⟩ 0
    ⟨7, "u", "student", none, none, none, some "B", some 1, some "A1",
      some "P", "t0", "t0"⟩
    ⟨7, "u", "student", none, none, none, some "B", some 1, some "A1",
      some "P", "t0", "t0"⟩ (by decide) (by decide)
  exact ⟨h.1, fun hx => h.2.1 hx⟩

/-- C2: delete_messages_after is idempotent (the second call deletes
nothing, leaving the whole state equal), and it preserves referential
integrity of the attachments table, so after the call every surviving
attachment references a surviving message. -/
theorem C2_delete_messages_after_idempotent (db : DB) (c m : Nat)
    (h : attachmentIntegrity db) :
    delete_messages_after (delete_messages_after db c m) c m
        = delete_messages_after db c m
    ∧ attachmentIntegrity (delete_messages_after db c m) := by
  constructor
  · have hnil : (delete_messages_after db c m).messages.filter
        (fun x => decide (x.conversation_id = c ∧ m < x.id)) = [] := by
      rw [List.filter_eq_nil_iff]
      intro x hx
      have := List.of_mem_filter hx
      simp only [decide_eq_true_eq] at this ⊢
      exact this
    have hmsgs : (delete_messages_after db c m).messages.filter
        (fun x => decide (¬(x.conversation_id = c ∧ m < x.id)))
        = (delete_messages_after db c m).messages := by
      rw [List.filter_eq_self]
      intro x hx
      have := List.of_mem_filter hx
      exact this
    show (let msg_ids := ((delete_messages_after db c m).messages.filter
        (fun x => decide (x.conversation_id = c ∧ m < x.id))).map (fun x => x.id);
      _) = _
    rw [delete_messages_after]
    simp only [hnil, hmsgs, List.map_nil, ne_eq, not_true_eq_false, if_neg,
      reduceIte]
  · intro a ha
    simp only [delete_messages_after] at ha
    set msg_ids := (db.messages.filter
        (fun x => decide (x.conversation_id = c ∧ m < x.id))).map (fun x => x.id)
      with hmi
    have hmem : a ∈ db.attachments ∧ a.message_id ∉ msg_ids := by
      by_cases hnil : msg_ids = []
      · rw [if_neg (by simpa using hnil)] at ha
        exact ⟨ha, by simp [hnil]⟩
      · rw [if_pos (by simpa using hnil)] at ha
        refine ⟨List.mem_of_mem_filter ha, ?_⟩
        have := List.of_mem_filter ha
        simpa using this
    obtain ⟨mg, hmg, hid⟩ := h a hmem.1
    refine ⟨mg, ?_, hid⟩
    simp only [delete_messages_after, List.mem_filter, decide_eq_true_eq]
    refine ⟨hmg, ?_⟩
    intro hcond
    apply hmem.2
    rw [hmi, ← hid]
    have hmgf : mg ∈ db.messages.filter
        (fun x => decide (x.conversation_id = c ∧ m < x.id)) :=
      List.mem_filter_of_mem hmg (decide_eq_true hcond)
    exact List.mem_map_of_mem (fun x => x.id) hmgf

theorem C2_delete_messages_after_idempotent_witness :
    delete_messages_after (delete_messages_after
        ⟨[], [], [], [],
          [⟨1, 5, "user", "q", "t0"⟩, ⟨2, 5, "assistant", "a", "t0"⟩,
            ⟨3, 5, "user", "q2", "t0"⟩],
          [⟨1, 1, "file", "f.txt", "text/plain", some [1], some "x", none, none,
            "t0"⟩,
           ⟨2, 3, "image", "i.png", "image/png", some [2], none, none, none,
            "t0"⟩], 4, 3⟩ 5 1) 5 1
      = delete_messages_after
        ⟨[], [], [], [],
          [⟨1, 5, "user", "q", "t0"⟩, ⟨2, 5, "assistant", "a", "t0"⟩,
            ⟨3, 5, "user", "q2", "t0"⟩],
          [⟨1, 1, "file", "f.txt", "text/plain", some [1], some "x", none, none,
            "t0"⟩,
           ⟨2, 3, "image", "i.png", "image/png", some [2], none, none, none,
            "t0"⟩], 4, 3⟩ 5 1
    ∧ attachmentIntegrity (delete_messages_after
        ⟨[], [], [], [],
          [⟨1, 5, "user", "q", "t0"⟩, ⟨2, 5, "assistant", "a", "t0"⟩,
            ⟨3, 5, "user", "q2", "t0"⟩],
          [⟨1, 1, "file", "f.txt", "text/plain", some [1], some "x", none, none,
            "t0"⟩,
           ⟨2, 3, "image", "i.png", "image/png", some [2], none, none, none,
            "t0"⟩], 4, 3⟩ 5 1) :=
  C2_delete_messages_after_idempotent _ 5 1 (by unfold attachmentIntegrity; decide)

/-- Behaviour of chat_stream when the think flag is truthy and the first
response status is 400 or 422: exactly one retry is issued with the think
key removed and the same url and headers, and the final outcome is decided
by the status of the retried response. -/
theorem chat_stream_retry_eq (server : Nat → ChatPayload → HttpResponse)
    (host : String) (api_key : Option String) (model : String)
    (messages : List PayloadMsg) (options : Option String) (t : String)
    (ht : t ≠ "")
    (hstatus :
      (server 0 (initialChatPayload model messages options (some t))).status = 400
      ∨ (server 0 (initialChatPayload model messages options (some t))).status = 422) :
    chat_stream server host api_key model messages options (some t)
      = (if 400 ≤ (server 1 { initialChatPayload model messages options (some t)
            with think := none }).status then
          ([⟨base_api_url host ++ "/chat", chatHeaders api_key,
              initialChatPayload model messages options (some t)⟩,
            ⟨base_api_url host ++ "/chat", chatHeaders api_key,
              { initialChatPayload model messages options (some t) with
                think := none }⟩],
            Except.error (raise_with_details
              (server 1 { initialChatPayload model messages options (some t) with
                think := none })
              (base_api_url host ++ "/chat")))
        else
          ([⟨base_api_url host ++ "/chat", chatHeaders api_key,
              initialChatPayload model messages options (some t)⟩,
            ⟨base_api_url host ++ "/chat", chatHeaders api_key,
              { initialChatPayload model messages options (some t) with
                think := none }⟩],
            Except.ok (server 1 { initialChatPayload model messages options (some t)
              with think := none }))) := by
  have hthink : (initialChatPayload model messages options (some t)).think = some t := by
    simp [initialChatPayload, ht]
  simp only [chat_stream]
  rw [if_pos ⟨hstatus, by rw [hthink]; simp⟩, if_pos (Or.inr trivial)]

/-- A concrete server for exercising the retry path: the first POST gets
status 400 with a body mentioning think, the retry gets status 500. -/
def c3Server : Nat → ChatPayload → HttpResponse :=
  fun n _ => if n = 0 then ⟨400, "think is not supported"⟩ else ⟨500, "boom"⟩

/-- C3 counterexample: with a non-empty think flag, a first response with
the client-error status 404 whose body mentions the think field does not
trigger any retry — only one request is ever issued, refuting the claim
that every client-error status mentioning the capability field is retried
(the code retries only on 400 and 422). -/
theorem C3_capability_retry_counterexample :
    (400 ≤ 404 ∧ 404 < 500)
    ∧ bodyMentionsThink "think is not supported" = true
    ∧ ((chat_stream (fun _ _ => ⟨404, "think is not supported"⟩) "http://h" none
        "m" [] none (some "high")).1).length = 1 := by
  refine ⟨by decide, by decide, ?_⟩
  rfl

/-- C3 (amended: the retried statuses are exactly 400 and 422, not every
client-error status): chat_stream never issues more than two requests; and
with a non-empty think flag, if the first POST returns status 400 or 422
with a body mentioning the think field, exactly one retry is issued with
the think key removed and the same url, headers, model, messages and
options, and if the retried request also returns a status of at least 400
the error raised to the caller carries that status and the request url
(hence the host). -/
theorem C3_capability_retry :
    (∀ (server : Nat → ChatPayload → HttpResponse) (host : String)
        (api_key : Option String) (model : String) (messages : List PayloadMsg)
        (options think : Option String),
      ((chat_stream server host api_key model messages options think).1).length ≤ 2)
    ∧ (∀ (server : Nat → ChatPayload → HttpResponse) (host : String)
        (api_key : Option String) (model : String) (messages : List PayloadMsg)
        (options : Option String) (t : String),
        t ≠ "" →
        ((server 0 (initialChatPayload model messages options (some t))).status = 400
          ∨ (server 0 (initialChatPayload model messages options (some t))).status
              = 422) →
        bodyMentionsThink
          (server 0 (initialChatPayload model messages options (some t))).body
            = true →
        ∃ req0 req1 : ChatRequest,
          (chat_stream server host api_key model messages options (some t)).1
              = [req0, req1]
          ∧ req0.url = base_api_url host ++ "/chat"
          ∧ req1.url = req0.url
          ∧ req1.headers = req0.headers
          ∧ req0.payload = initialChatPayload model messages options (some t)
          ∧ req1.payload = { req0.payload with think := none }
          ∧ req1.payload.model = req0.payload.model
          ∧ req1.payload.messages = req0.payload.messages
          ∧ req1.payload.options = req0.payload.options
          ∧ req1.payload.think = none
          ∧ (400 ≤ (server 1 { initialChatPayload model messages options (some t)
                with think := none }).status →
              (chat_stream server host api_key model messages options (some t)).2
                = Except.error (raise_with_details
                    (server 1 { initialChatPayload model messages options (some t)
                      with think := none })
                    (base_api_url host ++ "/chat")))) := by
  constructor
  · intro server host api_key model messages options think
    simp only [chat_stream]
    split
    · split
      · split <;> simp
      · split <;> simp
    · split <;> simp
  · intro server host api_key model messages options t ht hstatus _hbody
    have heq := chat_stream_retry_eq server host api_key model messages options t
      ht hstatus
    refine ⟨⟨base_api_url host ++ "/chat", chatHeaders api_key,
        initialChatPayload model messages options (some t)⟩,
      ⟨base_api_url host ++ "/chat", chatHeaders api_key,
        { initialChatPayload model messages options (some t) with think := none }⟩,
      ?_, rfl, rfl, rfl, rfl, rfl, rfl, rfl, rfl, rfl, ?_⟩
    · rw [heq]
      split <;> rfl
    · intro hr1
      rw [heq, if_pos hr1]

theorem C3_capability_retry_witness :
    ((("high" : String) ≠ "")
      ∧ ((c3Server 0 (initialChatPayload "m" [] none (some "high"))).status = 400
        ∨ (c3Server 0 (initialChatPayload "m" [] none (some "high"))).status = 422)
      ∧ bodyMentionsThink
          (c3Server 0 (initialChatPayload "m" [] none (some "high"))).body = true)
    ∧ (∃ req0 req1 : ChatRequest,
        (chat_stream c3Server "http://h" none "m" [] none (some "high")).1
            = [req0, req1]
        ∧ req0.url = base_api_url "http://h" ++ "/chat"
        ∧ req1.url = req0.url
        ∧ req1.headers = req0.headers
        ∧ req0.payload = initialChatPayload "m" [] none (some "high")
        ∧ req1.payload = { req0.payload with think := none }
        ∧ req1.payload.model = req0.payload.model
        ∧ req1.payload.messages = req0.payload.messages
        ∧ req1.payload.options = req0.payload.options
        ∧ req1.payload.think = none
        ∧ (400 ≤ (c3Server 1 { initialChatPayload "m" [] none (some "high") with
              think := none }).status →
            (chat_stream c3Server "http://h" none "m" [] none (some "high")).2
              = Except.error (raise_with_details
                  (c3Server 1 { initialChatPayload "m" [] none (some "high") with
                    think := none })
                  (base_api_url "http://h" ++ "/chat")))) :=
  ⟨⟨by decide, by decide, by decide⟩,
    C3_capability_retry.2 c3Server "http://h" none "m" [] none "high" (by decide)
      (by decide) (by decide)⟩

/-- C4: attachment round-trip. Without external storage the stored bytes
are returned unchanged by the read path. With external storage configured,
however, add_attachment always raises TypeError, because the call passes
the keywords supabase_url, service_role_key, bucket, path and content_type
to supabase_storage.upload_bytes, whose keyword-only parameters are
user_id, conversation_id, message_id, filename, mime, data and upsert: the
external round-trip can never complete, refuting the claim for the
configured case. -/
theorem C4_attachment_roundtrip :
    (∀ (db : DB) (message_id : Nat) (kind filename mime : String)
        (data : List Nat) (text_content : Option String) (now : String)
        (fetch : String → String → Except Unit (List Nat)),
      ∃ db2, add_attachment false "b" "p" db message_id kind filename mime data
          text_content now = Except.ok db2
        ∧ (⟨db.next_attachment_id, message_id, kind, filename, mime, some data,
            text_content⟩ : AttachmentOut)
            ∈ list_attachments_for_message_ids false fetch db2 [message_id])
    ∧ (∀ (db : DB) (message_id : Nat) (kind filename mime : String)
        (data : List Nat) (text_content : Option String)
        (now bucketCfg randPath : String),
        add_attachment true bucketCfg randPath db message_id kind filename mime
            data text_content now
          = Except.error
              "TypeError: upload_bytes() got an unexpected keyword argument") := by
  constructor
  · intro db message_id kind filename mime data text_content now fetch
    refine ⟨_, rfl, ?_⟩
    unfold list_attachments_for_message_ids
    rw [if_neg (by simp)]
    refine List.mem_map.mpr ⟨⟨db.next_attachment_id, message_id, kind, filename,
      mime, some data, text_content, none, none, now⟩, ?_, ?_⟩
    · refine List.mem_filter_of_mem ?_ (by simp)
      simp
    · unfold resolve_attachment_row
      dsimp only
      rw [if_neg (by simp)]
  · intro db message_id kind filename mime data text_content now bucketCfg randPath
    rfl

/-- C8: when the stored expiry parses to a time earlier than now,
get_session deletes the row and reports not-found; and whenever
get_session returns a session, the stored state is left entirely
unchanged (in particular no expires_at is modified or extended). -/
theorem C8_session_expiry (parse : String → Option Int) (now : Int) (db : DB)
    (token : String) (d : SessionRow) (exp : Int)
    (hfind : db.sessions.find? (fun s => s.token = token) = some d)
    (hparse : parse d.expires_at = some exp) (hexp : exp < now) :
    (get_session parse now db token).1 = none
    ∧ (∀ s ∈ (get_session parse now db token).2.sessions, s.token ≠ token)
    ∧ (∀ (parse₂ : String → Option Int) (now₂ : Int) (db₂ : DB) (t₂ : String)
        (v : SessionView),
        (get_session parse₂ now₂ db₂ t₂).1 = some v →
        (get_session parse₂ now₂ db₂ t₂).2 = db₂) := by
  refine ⟨?_, ?_, ?_⟩
  · unfold get_session
    rw [hfind]
    simp only [hparse, if_pos hexp]
  · intro s hs
    unfold get_session at hs
    rw [hfind] at hs
    simp only [hparse, if_pos hexp] at hs
    have := List.of_mem_filter hs
    simpa using this
  · intro parse₂ now₂ db₂ t₂ v hv
    unfold get_session at hv ⊢
    cases hf : db₂.sessions.find? (fun s => s.token = t₂) with
    | none => rfl
    | some d₂ =>
      rw [hf] at hv
      dsimp only at hv ⊢
      cases hp : parse₂ d₂.expires_at with
      | none => rfl
      | some e₂ =>
        rw [hp] at hv
        dsimp only at hv ⊢
        by_cases he : e₂ < now₂
        · rw [if_pos he] at hv
          exact absurd hv (by simp)
        · rw [if_neg he]

theorem C8_session_expiry_witness :
    ((⟨[⟨"tok", "alice", "student", "t0", "2020-01-01"⟩], [], [], [], [], [], 1, 1⟩
        : DB).sessions.find? (fun s => s.token = "tok")
      = some ⟨"tok", "alice", "student", "t0", "2020-01-01"⟩)
    ∧ ((fun _ => some (5 : Int)) "2020-01-01" = some 5)
    ∧ ((5 : Int) < 9)
    ∧ (get_session (fun _ => some 5) 9
        ⟨[⟨"tok", "alice", "student", "t0", "2020-01-01"⟩], [], [], [], [], [], 1, 1⟩
        "tok").1 = none
    ∧ (∀ s ∈ (get_session (fun _ => some 5) 9
        ⟨[⟨"tok", "alice", "student", "t0", "2020-01-01"⟩], [], [], [], [], [], 1, 1⟩
        "tok").2.sessions, s.token ≠ "tok") := by
  have h := C8_session_expiry (fun _ => some 5) 9
    ⟨[⟨"tok", "alice", "student", "t0", "2020-01-01"⟩], [], [], [], [], [], 1, 1⟩
    "tok" ⟨"tok", "alice", "student", "t0", "2020-01-01"⟩ 5 (by decide) rfl
    (by decide)
  exact ⟨by decide, rfl, by decide, h.1, h.2.1⟩

/-- C9: a failing external download never raises out of the attachment
read path (the embedding is a total function); the record of the affected
row is still returned, with empty data and with id, kind, filename, mime
and text_content taken unchanged from the row. -/
theorem C9_download_failure_degrades
    (fetch : String → String → Except Unit (List Nat)) (db : DB)
    (ids : List Nat) (r : AttachmentRow)
    (hr : r ∈ db.attachments) (hid : r.message_id ∈ ids) (hdata : r.data = none)
    (_hfail : fetch (r.bucket.getD "") (r.path.getD "") = Except.error ()) :
    (⟨r.id, r.message_id, r.kind, r.filename, r.mime, none, r.text_content⟩
        : AttachmentOut)
      ∈ list_attachments_for_message_ids true fetch db ids := by
  unfold list_attachments_for_message_ids
  rw [if_neg (by rintro rfl; simp at hid)]
  refine List.mem_map.mpr ⟨r, List.mem_filter_of_mem hr (decide_eq_true hid), ?_⟩
  unfold resolve_attachment_row
  dsimp only
  by_cases hcond : r.data = none ∧ (true : Bool)
      ∧ r.bucket ≠ none ∧ r.bucket ≠ some ""
      ∧ r.path ≠ none ∧ r.path ≠ some ""
  · rw [if_pos hcond,
      if_neg (by decide :
        ¬kwargsOk downloadBytesParamNames listAttachmentsDownloadKwargs = true)]
  · rw [if_neg hcond, hdata]

theorem C9_download_failure_degrades_witness :
    ((⟨5, 3, "image", "i.png", "image/png", none, none, some "buck", some "pth",
        "t0"⟩ : AttachmentRow)
      ∈ (⟨[], [], [], [], [],
          [⟨5, 3, "image", "i.png", "image/png", none, none, some "buck",
            some "pth", "t0"⟩], 1, 6⟩ : DB).attachments)
    ∧ ((3 : Nat) ∈ [3])
    ∧ ((fun _ _ => (Except.error () : Except Unit (List Nat))) "buck" "pth"
        = Except.error ())
    ∧ ((⟨5, 3, "image", "i.png", "image/png", none, none⟩ : AttachmentOut)
        ∈ list_attachments_for_message_ids true (fun _ _ => Except.error ())
          ⟨[], [], [], [], [],
            [⟨5, 3, "image", "i.png", "image/png", none, none, some "buck",
              some "pth", "t0"⟩], 1, 6⟩ [3]) :=
  ⟨by decide, by decide, rfl,
    C9_download_failure_degrades (fun _ _ => Except.error ())
      ⟨[], [], [], [], [],
        [⟨5, 3, "image", "i.png", "image/png", none, none, some "buck",
          some "pth", "t0"⟩], 1, 6⟩ [3]
      ⟨5, 3, "image", "i.png", "image/png", none, none, some "buck", some "pth",
        "t0"⟩ (by decide) (by decide) rfl rfl⟩

/-- C10: when the stored expiry cannot be parsed, get_session swallows the
error and returns the session as valid, with the state unchanged — the
expiry check is silently skipped. -/
theorem C10_malformed_expiry_accepted (parse : String → Option Int) (now : Int)
    (db : DB) (token : String) (d : SessionRow)
    (hfind : db.sessions.find? (fun s => s.token = token) = some d)
    (hparse : parse d.expires_at = none) :
    get_session parse now db token = (some ⟨d.token, d.user_id, d.role⟩, db) := by
  unfold get_session
  rw [hfind]
  dsimp only
  rw [hparse]

theorem C10_malformed_expiry_accepted_witness :
    ((⟨[⟨"tok", "bob", "admin", "t0", "not-a-timestamp"⟩], [], [], [], [], [],
        1, 1⟩ : DB).sessions.find? (fun s => s.token = "tok")
      = some ⟨"tok", "bob", "admin", "t0", "not-a-timestamp"⟩)
    ∧ ((fun _ => (none : Option Int)) "not-a-timestamp" = none)
    ∧ get_session (fun _ => none) 9
        ⟨[⟨"tok", "bob", "admin", "t0", "not-a-timestamp"⟩], [], [], [], [], [],
          1, 1⟩ "tok"
      = (some ⟨"tok", "bob", "admin"⟩,
          ⟨[⟨"tok", "bob", "admin", "t0", "not-a-timestamp"⟩], [], [], [], [], [],
            1, 1⟩) :=
  ⟨by decide, rfl,
    C10_malformed_expiry_accepted (fun _ => none) 9
      ⟨[⟨"tok", "bob", "admin", "t0", "not-a-timestamp"⟩], [], [], [], [], [],
        1, 1⟩ "tok" ⟨"tok", "bob", "admin", "t0", "not-a-timestamp"⟩
      (by decide) rfl⟩

/-- The default base prompt is not whitespace-only. -/
theorem pyStrip_default_ne_empty : ¬pyStrip DEFAULT_BASE_PROMPT = "" := by decide

/-- The system prompt computed by the payload builder agrees with the
spec-side formula of specSystemPrompt. -/
theorem payloadSystemPrompt_eq_spec (conv : ConvMeta)
    (globalBase activePrompt : Option String) :
    payloadSystemPrompt conv globalBase activePrompt
      = specSystemPrompt conv globalBase activePrompt := by
  unfold payloadSystemPrompt specSystemPrompt
  dsimp only
  by_cases h1 : pyStrip (conv.base_prompt.getD "") ≠ ""
      ∨ pyStrip (conv.assignment_prompt.getD "") ≠ ""
  · rw [if_pos h1, if_pos h1]
    unfold combined_prompt
    dsimp only
    rw [pyStrip_idem, pyStrip_idem]
  · rw [if_neg h1, if_neg h1]
    by_cases h2 : pyStrip (conv.system_prompt.getD "") ≠ ""
    · rw [if_pos h2, if_pos h2]
    · rw [if_neg h2, if_neg h2]
      unfold combined_prompt get_base_system_prompt
      cases globalBase with
      | none =>
        dsimp only
        simp only [Option.getD_none]
        rw [if_neg pyStrip_default_ne_empty,
          if_pos (show pyStrip "" = "" by decide)]
      | some s =>
        dsimp only
        simp only [Option.getD_some]
        by_cases hs : pyStrip s ≠ ""
        · simp only [if_pos hs, if_neg hs]
        · rw [if_neg hs]
          push_neg at hs
          rw [if_neg pyStrip_default_ne_empty, if_pos hs]

/-- C5 counterexample: two concrete inputs refute the claim as stated.
First, a conversation whose only prompt source is the stored
system_prompt with surrounding whitespace: the payload system turn holds
the stripped value, not the verbatim one. Second, a conversation whose
assignment snapshot is whitespace (non-empty but stripping to empty): the
claimed formula appends two newlines, while the code appends nothing. -/
theorem C5_system_turn_counterexample :
    ((build_payload_messages 3 1 (fun _ => "") ⟨none, none, some " keep "⟩ none
        none [])[0]? = some ⟨"system", "keep", []⟩
      ∧ ("keep" : String) ≠ " keep ")
    ∧ ((build_payload_messages 3 1 (fun _ => "") ⟨some "B", some " ", none⟩ none
        none [])[0]? = some ⟨"system", "B", []⟩
      ∧ ("B" : String) ≠ "B\n\n") :=
  ⟨⟨by decide, by decide⟩, by decide, by decide⟩

/-- C5 (amended: the stored system_prompt is used stripped, not verbatim,
and the assignment part is appended only when it is non-empty after
stripping): the first element of every assembled payload is a system turn
whose content follows the spec formula — the frozen base/assignment
snapshot combined by the concatenation rule with the hardcoded default
substituted for an empty base, else the stripped stored system_prompt,
else the rule applied to the current global base prompt setting and the
active assignment prompt. -/
theorem C5_system_turn (fileN imageN : Nat) (b64 : List Nat → String)
    (conv : ConvMeta) (globalBase activePrompt : Option String)
    (msgs : List UiMessage) :
    (build_payload_messages fileN imageN b64 conv globalBase activePrompt
        msgs)[0]?
      = some ⟨"system", specSystemPrompt conv globalBase activePrompt, []⟩ := by
  unfold build_payload_messages
  rw [List.getElem?_cons_zero, payloadSystemPrompt_eq_spec]

/-- C6: in the assembled payload, a user turn gets its extracted file text
appended exactly when its index is among the last fileN user turns (its
plain content is passed through unchanged otherwise), and it carries
images only when its index is among the last imageN user turns. -/
theorem C6_attachment_windowing (fileN imageN : Nat) (b64 : List Nat → String)
    (conv : ConvMeta) (globalBase activePrompt : Option String)
    (msgs : List UiMessage) (i : Nat) (m : UiMessage)
    (hm : msgs[i]? = some m) (hrole : m.role = "user") :
    ∃ e : PayloadMsg,
      (build_payload_messages fileN imageN b64 conv globalBase activePrompt
          msgs)[i + 1]?
        = some e
      ∧ e.role = "user"
      ∧ e.content = (if i ∈ lastWindow fileN msgs then
          m.content ++ fileTextSuffix m.attachments else m.content)
      ∧ (e.images ≠ [] → i ∈ lastWindow imageN msgs) := by
  refine ⟨⟨"user",
    (if i ∈ lastWindow fileN msgs then m.content ++ fileTextSuffix m.attachments
      else m.content),
    (if i ∈ lastWindow imageN msgs then imagesOf b64 m.attachments else [])⟩,
    ?_, rfl, rfl, ?_⟩
  · unfold build_payload_messages
    rw [List.getElem?_cons_succ, List.getElem?_map, List.getElem?_enum, hm]
    simp [hrole]
  · intro hne
    by_cases hin : i ∈ lastWindow imageN msgs
    · exact hin
    · dsimp only at hne
      rw [if_neg hin] at hne
      exact absurd rfl hne

theorem C6_attachment_windowing_witness :
    ∃ e : PayloadMsg,
      (build_payload_messages 1 1 (fun _ => "") ⟨none, none, none⟩ none none
          [⟨1, "user", "q1", [⟨"file", some "a.txt", some [1], some "T1"⟩]⟩,
           ⟨2, "user", "q2", []⟩, ⟨3, "user", "q3", []⟩])[0 + 1]?
        = some e
      ∧ e.role = "user"
      ∧ e.content = (if 0 ∈ lastWindow 1
            [⟨1, "user", "q1", [⟨"file", some "a.txt", some [1], some "T1"⟩]⟩,
             ⟨2, "user", "q2", []⟩, ⟨3, "user", "q3", []⟩] then
          (⟨1, "user", "q1",
            [⟨"file", some "a.txt", some [1], some "T1"⟩]⟩ : UiMessage).content
            ++ fileTextSuffix
              (⟨1, "user", "q1",
                [⟨"file", some "a.txt", some [1], some "T1"⟩]⟩ :
                  UiMessage).attachments
          else (⟨1, "user", "q1",
            [⟨"file", some "a.txt", some [1], some "T1"⟩]⟩ : UiMessage).content)
      ∧ (e.images ≠ [] → 0 ∈ lastWindow 1
            [⟨1, "user", "q1", [⟨"file", some "a.txt", some [1], some "T1"⟩]⟩,
             ⟨2, "user", "q2", []⟩, ⟨3, "user", "q3", []⟩]) :=
  C6_attachment_windowing 1 1 (fun _ => "") ⟨none, none, none⟩ none none
    [⟨1, "user", "q1", [⟨"file", some "a.txt", some [1], some "T1"⟩]⟩,
     ⟨2, "user", "q2", []⟩, ⟨3, "user", "q3", []⟩] 0
    ⟨1, "user", "q1", [⟨"file", some "a.txt", some [1], some "T1"⟩]⟩
    (by decide) rfl

/-- Folding the inline attachment insert over the uploaded files appends
exactly the corresponding rows and advances the attachment counter. -/
theorem foldl_insert_attachment (files : List FileUpload) (d : DB) (mid : Nat)
    (now : String) :
    files.foldl (fun d f => insert_attachment_inline d mid f now) d
      = { d with
          attachments := d.attachments ++ inlineRows d.next_attachment_id mid files now
          next_attachment_id := d.next_attachment_id + files.length } := by
  induction files generalizing d with
  | nil =>
    cases d
    simp [inlineRows]
  | cons f fs ih =>
    simp only [List.foldl_cons]
    rw [ih]
    cases d
    simp [insert_attachment_inline, inlineRows, List.enumFrom_cons]
    omega

/-- C7: in the send flow, the user message and its attachments are
persisted before the streaming call, so a stream failure leaves exactly
the user turn (and its attachment rows) stored with no assistant row; and
an assistant message holding the accumulated chunks is appended only when
the stream completes without raising. -/
theorem C7_persistence_ordering (db : DB) (conv_id : Nat) (user_text : String)
    (files : List FileUpload) (active_model now : String) :
    (∀ p,
      (send_flow db conv_id user_text files (StreamOutcome.fail p) active_model
          now).messages
        = db.messages ++ [⟨db.next_message_id, conv_id, "user", user_text, now⟩]
      ∧ (send_flow db conv_id user_text files (StreamOutcome.fail p) active_model
          now).attachments
        = db.attachments
            ++ inlineRows db.next_attachment_id db.next_message_id files now)
    ∧ (∀ chunks,
      (send_flow db conv_id user_text files (StreamOutcome.ok chunks) active_model
          now).messages
        = db.messages
            ++ [⟨db.next_message_id, conv_id, "user", user_text, now⟩,
                ⟨db.next_message_id + 1, conv_id, "assistant",
                  chunks.foldl (fun acc c => acc ++ c) "", now⟩]
      ∧ (send_flow db conv_id user_text files (StreamOutcome.ok chunks)
          active_model now).attachments
        = db.attachments
            ++ inlineRows db.next_attachment_id db.next_message_id files now) := by
  constructor
  · intro p
    unfold send_flow add_message
    dsimp only
    rw [foldl_insert_attachment]
    exact ⟨rfl, rfl⟩
  · intro chunks
    unfold send_flow add_message touch_conversation
    dsimp only
    rw [foldl_insert_attachment]
    refine ⟨?_, rfl⟩
    simp

end Ds330
